import Mathlib

/-!
Verification of `scripts/extract_features_from_theanh_data.py`.

The script extracts a fixed list of derived meteorological fields from a
single-time-slice WRF output file, interpolates level-dependent fields onto a
fixed list of pressure levels, assembles an xarray dataset, crops it to a
fixed lat/lon window and writes it to `<outputdir>/<pfx>_<time>.nc`.

Shallow embedding notes:
* The external libraries (`wrf-python`, `netCDF4`, `xarray`) are modelled as
  an abstract capability record `WrfLib` whose operations may fail with a
  Python exception (`PyErr`).  The script's own code is translated directly.
* Arrays are modelled by `WrfArray` (number of axes, flattened data,
  attribute list); coordinate arrays are lists of rationals.
* Python's `try/except (ValueError, KeyError)` is modelled by `Except PyErr`
  together with `PyErr.isRecoverable`.
* `xarray.Dataset.sel` with label slices on the `lat`/`lon` coordinates is
  modelled on the coordinate axes by `selSlice`, which mirrors pandas
  `slice_locs` / numpy `searchsorted` behaviour on a monotonically
  increasing index (inclusive on both endpoints).
-/

namespace ExtractFeatures

/-- Python exception kinds relevant to the script: the two kinds caught by the
extraction loop's `except (ValueError, KeyError)` clause, and every other kind. -/
inductive PyErr where
  | valueError
  | keyError
  | other (msg : String)
  deriving DecidableEq, Repr

/-- Whether an exception is caught by `except (ValueError, KeyError)`. -/
def PyErr.isRecoverable : PyErr → Bool
  | .valueError => true
  | .keyError => true
  | .other _ => false

/-- A WRF/xarray data array: number of axes, (flattened) data, attributes. -/
structure WrfArray where
  ndim : Nat
  data : List Rat
  attrs : List (String × String)
  deriving DecidableEq, Repr

/-- A `cftime` datetime as produced by `netCDF4.num2date`. -/
structure WrfTime where
  year : Nat
  month : Nat
  day : Nat
  hour : Nat
  minute : Nat
  deriving DecidableEq, Repr

/-- The raw netCDF snapshot (`netCDF4.Dataset`): the `XLAT` and `XLONG`
coordinate variables (3-D: time, south_north, west_east), the decoded
`XTIME` values, and the global attributes (`ds.__dict__`). -/
structure Snapshot where
  xlat : List (List (List Rat))
  xlong : List (List (List Rat))
  times : List WrfTime
  attrs : List (String × String)
  deriving DecidableEq, Repr

/-- The external diagnostics/grid library (`wrf-python`), as an abstract
capability: each operation may raise a Python exception. -/
structure WrfLib where
  getvar : Snapshot → String → Option String → Except PyErr WrfArray
  destagger : WrfArray → Nat → Except PyErr WrfArray
  interplevel : WrfArray → WrfArray → List Int → Except PyErr WrfArray
  addArrays : WrfArray → WrfArray → WrfArray

/-- `PRESSURE_LEVELS` constant from the script. -/
def PRESSURE_LEVELS : List Int :=
  [1000, 975, 950, 925, 900, 850, 800, 750, 700,
   650, 600, 550, 500, 450, 400, 350, 300, 250, 200]

/-- `TIME_FORMAT` constant from the script. -/
def TIME_FORMAT : String := "%Y%m%d_%H_%M"

/-- Command-line arguments (`inputfile`, `outputdir`, `--prefix`; the last is
called `pfx` here because its Python name is a Lean keyword). -/
structure Args where
  inputfile : String
  outputdir : String
  pfx : String
  deriving DecidableEq, Repr

/-- `calculate_vorticity`: `wrf.getvar(ds, 'avo')`. -/
def calculate_vorticity (w : WrfLib) (ds : Snapshot) : Except PyErr WrfArray :=
  w.getvar ds "avo" none

/-- `calculate_geopotential`: `PH + PHB`, destaggered along axis 0. -/
def calculate_geopotential (w : WrfLib) (ds : Snapshot) : Except PyErr WrfArray :=
  match w.getvar ds "PH" none with
  | .error e => .error e
  | .ok ph =>
    match w.getvar ds "PHB" none with
    | .error e => .error e
    | .ok phb => w.destagger (w.addArrays ph phb) 0

/-- `calculate_relative_humidity`: `wrf.getvar(ds, 'rh')`. -/
def calculate_relative_humidity (w : WrfLib) (ds : Snapshot) : Except PyErr WrfArray :=
  w.getvar ds "rh" none

/-- `calculate_pressure`: `wrf.getvar(ds, 'p', units='hPa')`. -/
def calculate_pressure (w : WrfLib) (ds : Snapshot) : Except PyErr WrfArray :=
  w.getvar ds "p" (some "hPa")

/-- `calculate_temperature`: `wrf.getvar(ds, 'T')`. -/
def calculate_temperature (w : WrfLib) (ds : Snapshot) : Except PyErr WrfArray :=
  w.getvar ds "T" none

/-- `calculate_uwind`: `wrf.getvar(ds, 'ua', units='m s-1')`. -/
def calculate_uwind (w : WrfLib) (ds : Snapshot) : Except PyErr WrfArray :=
  w.getvar ds "ua" (some "m s-1")

/-- `calculate_vwind`: `wrf.getvar(ds, 'va', units='m s-1')`. -/
def calculate_vwind (w : WrfLib) (ds : Snapshot) : Except PyErr WrfArray :=
  w.getvar ds "va" (some "m s-1")

/-- `calculate_wwind`: `wrf.getvar(ds, 'wa', units='m s-1')`. -/
def calculate_wwind (w : WrfLib) (ds : Snapshot) : Except PyErr WrfArray :=
  w.getvar ds "wa" (some "m s-1")

/-- `calculate_slp`: `wrf.getvar(ds, 'slp', units='hPa')`. -/
def calculate_slp (w : WrfLib) (ds : Snapshot) : Except PyErr WrfArray :=
  w.getvar ds "slp" (some "hPa")

/-- `calculate_cape`: `wrf.getvar(ds, 'cape2d')`. -/
def calculate_cape (w : WrfLib) (ds : Snapshot) : Except PyErr WrfArray :=
  w.getvar ds "cape2d" none

/-- `extract_at_levels`: `wrf.interplevel(var, pressures, levels)`. -/
def extract_at_levels (w : WrfLib) (var : WrfArray) (pressures : WrfArray)
    (levels : List Int) : Except PyErr WrfArray :=
  w.interplevel var pressures levels

/-- Elementwise rewrite performed by `np.where(lon < 0, lon + 360, lon)`. -/
def normalizeLon (x : Rat) : Rat :=
  if x < 0 then x + 360 else x

/-- `convert_longitudes_to_0_360`: rewrites the `XLONG` variable of the
snapshot elementwise, leaving every other variable untouched. -/
def convert_longitudes_to_0_360 (ds : Snapshot) : Snapshot :=
  { ds with xlong := ds.xlong.map (fun a => a.map (fun b => b.map normalizeLon)) }

/-- pandas/xarray label slicing of a (monotonically increasing) coordinate
axis: `searchsorted left` for the lower bound, `searchsorted right` for the
upper bound, keeping the contiguous index range in between. -/
def selSlice (coords : List Rat) (lo hi : Rat) : List Rat :=
  (coords.drop (coords.countP (fun y => decide (y < lo)))).take
    (coords.countP (fun y => decide (y ≤ hi)) -
      coords.countP (fun y => decide (y < lo)))

/-- One field of the assembled `xr.Dataset`: an `xr.Variable`. -/
structure XrVariable where
  dims : List String
  data : List Rat
  attrs : List (String × String)
  deriving DecidableEq, Repr

/-- The assembled `xr.Dataset`: named variables, the three coordinate axes
and the global attributes. -/
structure OutDataset where
  vars : List (String × XrVariable)
  lat : List Rat
  lon : List Rat
  lev : List Int
  attrs : List (String × String)
  deriving DecidableEq, Repr

/-- `extract_in_domain`: `ds.sel(dict(lat=slice(*latrange), lon=slice(*lonrange)))`,
modelled on the coordinate axes (the corresponding subsetting of the data
arrays is internal to xarray). -/
def extract_in_domain (ds : OutDataset) (latrange : Rat × Rat)
    (lonrange : Rat × Rat) : OutDataset :=
  { ds with lat := selSlice ds.lat latrange.1 latrange.2,
            lon := selSlice ds.lon lonrange.1 lonrange.2 }

/-- `specify_dimensions_name` (local to `construct_xr_dataset`). -/
def specify_dimensions_name (var : WrfArray) : List String :=
  if var.ndim = 3 then ["lev", "lat", "lon"] else ["lat", "lon"]

/-- `filter_attrs` (local to `construct_xr_dataset`): drops the
non-serializable "projection" attribute, keeps everything else. -/
def filter_attrs (attrs : List (String × String)) : List (String × String) :=
  attrs.filter (fun p => p.1 != "projection")

/-- `construct_xr_dataset`. -/
def construct_xr_dataset (vars : List (String × WrfArray)) (lat lon : List Rat)
    (lev : List Int) (attrs : List (String × String)) : OutDataset :=
  { vars := vars.map (fun nv =>
      (nv.1, XrVariable.mk (specify_dimensions_name nv.2) nv.2.data
        (filter_attrs nv.2.attrs))),
    lat := lat, lon := lon, lev := lev, attrs := attrs }

/-- One iteration body of the extraction loop: `fn(ds)`, followed by the
optional `extract_at_levels(values, pressures, PRESSURE_LEVELS)`. -/
def extractField (interp : WrfArray → WrfArray → List Int → Except PyErr WrfArray)
    (ds : Snapshot) (pressures : WrfArray)
    (fn : Snapshot → Except PyErr WrfArray) (doLevels : Bool) :
    Except PyErr WrfArray :=
  match fn ds with
  | .error e => .error e
  | .ok values =>
    if doLevels then interp values pressures PRESSURE_LEVELS else .ok values

/-- The extraction loop over the variable table: a recoverable error drops
the field and continues, any other error propagates and aborts the run. -/
def extractLoop (interp : WrfArray → WrfArray → List Int → Except PyErr WrfArray)
    (ds : Snapshot) (pressures : WrfArray) :
    List (String × (Snapshot → Except PyErr WrfArray) × Bool) →
    Except PyErr (List (String × WrfArray))
  | [] => .ok []
  | (name, fn, doLevels) :: rest =>
    match extractField interp ds pressures fn doLevels with
    | .ok values =>
      match extractLoop interp ds pressures rest with
      | .ok tail => .ok ((name, values) :: tail)
      | .error e => .error e
    | .error e =>
      if e.isRecoverable then extractLoop interp ds pressures rest else .error e

/-- The `variables` table of `__main__`: name, diagnostic, level-dependent flag. -/
def variablesTable (w : WrfLib) :
    List (String × (Snapshot → Except PyErr WrfArray) × Bool) :=
  [("absvprs", calculate_vorticity w, true),
   ("capesfc", calculate_cape w, false),
   ("hgtprs", calculate_geopotential w, true),
   ("rhprs", calculate_relative_humidity w, true),
   ("tmpprs", calculate_temperature w, true),
   ("ugrdprs", calculate_uwind w, true),
   ("vgrdprs", calculate_vwind w, true),
   ("vvelprs", calculate_wwind w, true),
   ("slp", calculate_slp w, false)]

/-- `ds['XLAT'][0, :, 0]`. -/
def latCoordOf (ds : Snapshot) : List Rat :=
  (ds.xlat.headD []).map (fun row => row.headD 0)

/-- `ds['XLONG'][0, 0, :]`. -/
def lonCoordOf (ds : Snapshot) : List Rat :=
  (ds.xlong.headD []).headD []

/-- Zero-pad to two digits (strftime `%m`, `%d`, `%H`, `%M`). -/
def pad2 (n : Nat) : String :=
  if n < 10 then "0" ++ toString n else toString n

/-- Zero-pad to four digits (strftime `%Y`). -/
def pad4 (n : Nat) : String :=
  if n < 10 then "000" ++ toString n
  else if n < 100 then "00" ++ toString n
  else if n < 1000 then "0" ++ toString n
  else toString n

/-- `t.strftime(TIME_FORMAT)` for `TIME_FORMAT = '%Y%m%d_%H_%M'`. -/
def strftimeTimeFormat (t : WrfTime) : String :=
  pad4 t.year ++ pad2 t.month ++ pad2 t.day ++ "_" ++ pad2 t.hour ++ "_" ++
    pad2 t.minute

/-- `os.path.join(args.outputdir, f'{args.prefix}_{time[0].strftime(TIME_FORMAT)}.nc')`. -/
def outputPath (args : Args) (t : WrfTime) : String :=
  args.outputdir ++ "/" ++ args.pfx ++ "_" ++ strftimeTimeFormat t ++ ".nc"

/-- Errors that abort the run: the two `assert`s and a propagated Python
exception. -/
inductive RunError where
  | inputFileMissing
  | timeAssertion
  | pyErr (e : PyErr)
  deriving DecidableEq, Repr

/-- The run's result when it reaches the write step: the output file path
and the dataset written there. -/
structure MainOutput where
  path : String
  data : OutDataset
  deriving DecidableEq, Repr

/-- `__main__` after loading and longitude conversion: the single-time
assertion, the pressure computation, the extraction loop, container
assembly, domain crop and output path. `ds` is the already-converted
snapshot. -/
def runMainLoaded (w : WrfLib) (args : Args) (ds : Snapshot) :
    Except RunError MainOutput :=
  if ds.times.length = 1 then
    match calculate_pressure w ds with
    | .error e => .error (.pyErr e)
    | .ok pressures =>
      match extractLoop (extract_at_levels w) ds pressures (variablesTable w) with
      | .error e => .error (.pyErr e)
      | .ok v =>
        .ok { path := outputPath args (ds.times.headD ⟨0, 0, 0, 0, 0⟩),
              data := extract_in_domain
                (construct_xr_dataset v (latCoordOf ds) (lonCoordOf ds)
                  PRESSURE_LEVELS ds.attrs)
                (5, 45) (100, 260) }
  else .error .timeAssertion

/-- `__main__`: input-file assertion, load, longitude conversion, then the
rest of the pipeline. -/
def runMain (w : WrfLib) (inputFileExists : Bool) (args : Args)
    (rawDs : Snapshot) : Except RunError MainOutput :=
  if inputFileExists then
    runMainLoaded w args (convert_longitudes_to_0_360 rawDs)
  else .error .inputFileMissing

/-! ### Concrete example inputs used by the witnesses -/

/-- A sample 3-axis array. -/
def exArr : WrfArray := ⟨3, [1], []⟩

/-- A diagnostics library in which every operation succeeds. -/
def exW : WrfLib :=
  { getvar := fun _ _ _ => .ok exArr,
    destagger := fun a _ => .ok a,
    interplevel := fun a _ _ => .ok a,
    addArrays := fun a _ => a }

/-- A sample time value: 2008-05-05 00:00. -/
def exTime : WrfTime := ⟨2008, 5, 5, 0, 0⟩

/-- A sample single-time snapshot with increasing coordinate axes. -/
def exDs : Snapshot :=
  { xlat := [[[10], [20], [50]]],
    xlong := [[[90, 120, 300]]],
    times := [exTime],
    attrs := [("title", "wrfout"), ("projection", "lcc")] }

/-- Sample command-line arguments. -/
def exArgs : Args := { inputfile := "in.nc", outputdir := "out", pfx := "fnl" }

/-- The output produced by the example run. -/
def exOut : MainOutput :=
  (runMain exW true exArgs exDs).toOption.getD ⟨"", ⟨[], [], [], [], []⟩⟩

/-! ### Helper lemmas about `selSlice` -/

/-- On a monotonically increasing axis, label slicing keeps exactly the
coordinates inside the inclusive window. -/
theorem selSlice_eq_filter (lo hi : Rat) (hlh : lo ≤ hi) (l : List Rat)
    (hs : l.Sorted (fun x y => x ≤ y)) :
    selSlice l lo hi = l.filter (fun x => decide (lo ≤ x) && decide (x ≤ hi)) := by
  induction l with
  | nil => rfl
  | cons a t ih =>
    rw [List.sorted_cons] at hs
    obtain ⟨ha, ht⟩ := hs
    by_cases hal : a < lo
    · have h2 : decide (lo ≤ a) = false := decide_eq_false (not_le.mpr hal)
      have h3 : decide (a < lo) = true := decide_eq_true hal
      have h4 : decide (a ≤ hi) = true := decide_eq_true (le_trans hal.le hlh)
      simp only [selSlice, List.countP_cons, h3, h4, if_true, List.drop_succ_cons,
        Nat.add_sub_add_right, List.filter_cons, h2, Bool.false_and, if_false]
      exact ih ht
    · have hla : lo ≤ a := not_lt.mp hal
      have hcount0 : t.countP (fun y => decide (y < lo)) = 0 := by
        apply List.countP_eq_zero.mpr
        intro x hx
        simp only [decide_eq_true_eq]
        exact not_lt.mpr (le_trans hla (ha x hx))
      have h3 : decide (a < lo) = false := decide_eq_false hal
      have h2 : decide (lo ≤ a) = true := decide_eq_true hla
      by_cases hahi : a ≤ hi
      · have h4 : decide (a ≤ hi) = true := decide_eq_true hahi
        have ihx := ih ht
        simp only [selSlice, hcount0, List.drop_zero, Nat.sub_zero] at ihx
        simp only [selSlice, List.countP_cons, h3, h4, hcount0, if_true, if_false,
          Bool.false_eq_true, Nat.add_zero, Nat.zero_add, List.drop_zero,
          Nat.sub_zero, List.take_succ_cons, List.filter_cons, h2, Bool.true_and]
        rw [ihx]
      · have hhia : hi < a := not_le.mp hahi
        have hcountLe : (a :: t).countP (fun y => decide (y ≤ hi)) = 0 := by
          apply List.countP_eq_zero.mpr
          intro x hx
          rcases List.mem_cons.mp hx with h | h
          · subst h; simp [hahi]
          · have hx' : hi < x := lt_of_lt_of_le hhia (ha x h)
            simp [not_le.mpr hx']
        have hempty : selSlice (a :: t) lo hi = [] := by
          simp [selSlice, hcountLe]
        rw [hempty]
        symm
        apply List.filter_eq_nil_iff.mpr
        intro x hx
        rcases List.mem_cons.mp hx with h | h
        · subst h; simp [hahi]
        · have hx' : hi < x := lt_of_lt_of_le hhia (ha x h)
          simp [not_le.mpr hx']

/-- Membership characterization of `selSlice` on a sorted axis. -/
theorem mem_selSlice (lo hi : Rat) (hlh : lo ≤ hi) (l : List Rat)
    (hs : l.Sorted (fun x y => x ≤ y)) (x : Rat) :
    x ∈ selSlice l lo hi ↔ x ∈ l ∧ lo ≤ x ∧ x ≤ hi := by
  rw [selSlice_eq_filter lo hi hlh l hs, List.mem_filter]
  simp [and_assoc]

/-! ### Helper lemmas about the extraction loop -/

/-- A field whose extraction fails recoverably is skipped: the loop's result
is the same as if the field were not in the table at all. -/
theorem extractLoop_skip (interp : WrfArray → WrfArray → List Int → Except PyErr WrfArray)
    (ds : Snapshot) (p : WrfArray) (name : String)
    (fn : Snapshot → Except PyErr WrfArray) (dl : Bool) (e : PyErr)
    (hf : extractField interp ds p fn dl = .error e)
    (hr : e.isRecoverable = true)
    (post : List (String × (Snapshot → Except PyErr WrfArray) × Bool)) :
    ∀ pre, extractLoop interp ds p (pre ++ (name, fn, dl) :: post) =
      extractLoop interp ds p (pre ++ post) := by
  intro pre
  induction pre with
  | nil => simp only [List.nil_append, extractLoop, hf, hr, if_true]
  | cons g pre ih =>
    obtain ⟨gn, gfn, gdl⟩ := g
    simp only [List.cons_append, extractLoop, List.append_eq]
    simp only [List.append_eq] at ih
    rw [ih]

/-- A field whose extraction fails with a non-recoverable error makes the
whole loop fail. -/
theorem extractLoop_fatal (interp : WrfArray → WrfArray → List Int → Except PyErr WrfArray)
    (ds : Snapshot) (p : WrfArray) (name : String)
    (fn : Snapshot → Except PyErr WrfArray) (dl : Bool) (e : PyErr)
    (hf : extractField interp ds p fn dl = .error e)
    (hr : e.isRecoverable = false)
    (post : List (String × (Snapshot → Except PyErr WrfArray) × Bool)) :
    ∀ pre, ∃ e', extractLoop interp ds p (pre ++ (name, fn, dl) :: post) = .error e' := by
  intro pre
  induction pre with
  | nil =>
    refine ⟨e, ?_⟩
    simp only [List.nil_append, extractLoop, hf, hr, Bool.false_eq_true, if_false]
  | cons g pre ih =>
    obtain ⟨gn, gfn, gdl⟩ := g
    obtain ⟨e', he'⟩ := ih
    simp only [List.cons_append, extractLoop, List.append_eq]
    cases hg : extractField interp ds p gfn gdl with
    | ok a =>
      simp only [hg, he']
      exact ⟨e', rfl⟩
    | error e2 =>
      by_cases h2 : e2.isRecoverable = true
      · simp only [hg, h2, if_true, he']
        exact ⟨e', rfl⟩
      · simp only [hg, h2, if_false]
        exact ⟨e2, rfl⟩

/-- A field whose extraction succeeds appears in the loop's result (when the
loop as a whole succeeds). -/
theorem extractLoop_mem (interp : WrfArray → WrfArray → List Int → Except PyErr WrfArray)
    (ds : Snapshot) (p : WrfArray) (name : String)
    (fn : Snapshot → Except PyErr WrfArray) (dl : Bool) (values : WrfArray)
    (hf : extractField interp ds p fn dl = .ok values)
    (post : List (String × (Snapshot → Except PyErr WrfArray) × Bool)) :
    ∀ pre out, extractLoop interp ds p (pre ++ (name, fn, dl) :: post) = .ok out →
      (name, values) ∈ out := by
  intro pre
  induction pre with
  | nil =>
    intro out h
    simp only [List.nil_append, extractLoop, hf] at h
    cases hrest : extractLoop interp ds p post with
    | ok tail =>
      rw [hrest] at h
      simp only [Except.ok.injEq] at h
      subst h
      exact List.mem_cons_self _ _
    | error e =>
      rw [hrest] at h
      exact Except.noConfusion h
  | cons g pre ih =>
    obtain ⟨gn, gfn, gdl⟩ := g
    intro out h
    simp only [List.cons_append, extractLoop, List.append_eq] at h
    cases hg : extractField interp ds p gfn gdl with
    | ok a =>
      simp only [hg] at h
      cases hrest : extractLoop interp ds p (pre ++ (name, fn, dl) :: post) with
      | ok tail =>
        rw [hrest] at h
        simp only [Except.ok.injEq] at h
        subst h
        exact List.mem_cons_of_mem _ (ih tail hrest)
      | error e =>
        rw [hrest] at h
        exact Except.noConfusion h
    | error e2 =>
      simp only [hg] at h
      by_cases h2 : e2.isRecoverable = true
      · rw [if_pos h2] at h
        exact ih out h
      · rw [if_neg h2] at h
        exact Except.noConfusion h

/-! ### Helper lemmas about attribute filtering -/

/-- `filter_attrs` removes the "projection" key. -/
theorem lookup_filter_attrs_projection (l : List (String × String)) :
    (filter_attrs l).lookup "projection" = none := by
  induction l with
  | nil => rfl
  | cons p t ih =>
    obtain ⟨k, v⟩ := p
    simp only [filter_attrs] at ih ⊢
    by_cases hk : k = "projection"
    · subst hk
      simp only [List.filter_cons, bne_self_eq_false, Bool.false_eq_true, if_false]
      exact ih
    · have hkeep : (k != "projection") = true := bne_iff_ne.mpr hk
      have hne : ("projection" == k) = false :=
        beq_eq_false_iff_ne.mpr (Ne.symm hk)
      simp only [List.filter_cons, hkeep, if_true, List.lookup, hne]
      exact ih

/-- `filter_attrs` keeps every key other than "projection" unchanged. -/
theorem lookup_filter_attrs_ne (l : List (String × String)) (key : String)
    (hk : key ≠ "projection") :
    (filter_attrs l).lookup key = l.lookup key := by
  induction l with
  | nil => rfl
  | cons p t ih =>
    obtain ⟨k, v⟩ := p
    simp only [filter_attrs] at ih ⊢
    by_cases hp : k = "projection"
    · subst hp
      have hne : (key == "projection") = false := beq_eq_false_iff_ne.mpr hk
      simp only [List.filter_cons, bne_self_eq_false, Bool.false_eq_true,
        if_false, List.lookup, hne]
      exact ih
    · have hkeep : (k != "projection") = true := bne_iff_ne.mpr hp
      simp only [List.filter_cons, hkeep, if_true, List.lookup]
      cases hkk : key == k with
      | true => rfl
      | false => exact ih

/-! ### Helper lemmas about the main pipeline -/

/-- When the input file exists, the run is the loaded pipeline applied to the
longitude-converted snapshot. -/
theorem runMain_true (w : WrfLib) (args : Args) (rawDs : Snapshot) :
    runMain w true args rawDs =
      runMainLoaded w args (convert_longitudes_to_0_360 rawDs) := rfl

/-- Anatomy of a successful run: the single-time assertion passed, the
pressure computation and the extraction loop succeeded, and the output is the
cropped assembled container together with the time-stamped output path. -/
theorem runMainLoaded_ok_elim (w : WrfLib) (args : Args) (ds : Snapshot)
    (out : MainOutput) (h : runMainLoaded w args ds = .ok out) :
    ds.times.length = 1 ∧
    ∃ pressures v,
      calculate_pressure w ds = .ok pressures ∧
      extractLoop (extract_at_levels w) ds pressures (variablesTable w) = .ok v ∧
      out = { path := outputPath args (ds.times.headD ⟨0, 0, 0, 0, 0⟩),
              data := extract_in_domain
                (construct_xr_dataset v (latCoordOf ds) (lonCoordOf ds)
                  PRESSURE_LEVELS ds.attrs) (5, 45) (100, 260) } := by
  unfold runMainLoaded at h
  by_cases h1 : ds.times.length = 1
  · rw [if_pos h1] at h
    cases hp : calculate_pressure w ds with
    | error e =>
      simp only [hp] at h
      exact Except.noConfusion h
    | ok pressures =>
      simp only [hp] at h
      cases hl : extractLoop (extract_at_levels w) ds pressures (variablesTable w) with
      | error e =>
        simp only [hl] at h
        exact Except.noConfusion h
      | ok v =>
        simp only [hl, Except.ok.injEq] at h
        exact ⟨h1, pressures, v, rfl, hl, h.symm⟩
  · rw [if_neg h1] at h
    exact Except.noConfusion h

/-- The extraction loop only inspects the interpolation capability at the
fixed `PRESSURE_LEVELS` target. -/
theorem extractLoop_congr_interp
    (i i' : WrfArray → WrfArray → List Int → Except PyErr WrfArray)
    (h : ∀ a b, i a b PRESSURE_LEVELS = i' a b PRESSURE_LEVELS)
    (ds : Snapshot) (p : WrfArray) :
    ∀ fields, extractLoop i ds p fields = extractLoop i' ds p fields := by
  intro fields
  induction fields with
  | nil => rfl
  | cons f rest ih =>
    obtain ⟨n, fn, dl⟩ := f
    have hf : extractField i ds p fn dl = extractField i' ds p fn dl := by
      unfold extractField
      cases fn ds with
      | error e => rfl
      | ok values =>
        cases dl with
        | true => simp only [if_true, h]
        | false => rfl
    simp only [extractLoop, hf, ih]

/-- The variable table depends on the library only through `getvar`,
`destagger` and array addition. -/
theorem variablesTable_congr (w w' : WrfLib) (hg : w.getvar = w'.getvar)
    (hd : w.destagger = w'.destagger) (ha : w.addArrays = w'.addArrays) :
    variablesTable w = variablesTable w' := by
  have h1 : calculate_vorticity w = calculate_vorticity w' := by
    funext ds; simp only [calculate_vorticity, hg]
  have h2 : calculate_cape w = calculate_cape w' := by
    funext ds; simp only [calculate_cape, hg]
  have h3 : calculate_geopotential w = calculate_geopotential w' := by
    funext ds; simp only [calculate_geopotential, hg, hd, ha]
  have h4 : calculate_relative_humidity w = calculate_relative_humidity w' := by
    funext ds; simp only [calculate_relative_humidity, hg]
  have h5 : calculate_temperature w = calculate_temperature w' := by
    funext ds; simp only [calculate_temperature, hg]
  have h6 : calculate_uwind w = calculate_uwind w' := by
    funext ds; simp only [calculate_uwind, hg]
  have h7 : calculate_vwind w = calculate_vwind w' := by
    funext ds; simp only [calculate_vwind, hg]
  have h8 : calculate_wwind w = calculate_wwind w' := by
    funext ds; simp only [calculate_wwind, hg]
  have h9 : calculate_slp w = calculate_slp w' := by
    funext ds; simp only [calculate_slp, hg]
  simp only [variablesTable, h1, h2, h3, h4, h5, h6, h7, h8, h9]

/-! ### Claim theorems -/

/-- Claim C1: for every named field in the declared 9-field list, a
`ValueError`/`KeyError` raised while computing the field (including its
optional interpolation) makes the field be omitted while extraction
continues with the remaining fields; any other exception makes the whole
loop fail (and hence the run abort); a field that raises no exception is
present in the output mapping. -/
theorem c1_per_field_failure_policy (w : WrfLib)
    (interp : WrfArray → WrfArray → List Int → Except PyErr WrfArray)
    (ds : Snapshot) (p : WrfArray)
    (pre post : List (String × (Snapshot → Except PyErr WrfArray) × Bool))
    (name : String) (fn : Snapshot → Except PyErr WrfArray) (dl : Bool) :
    (variablesTable w).map Prod.fst =
      ["absvprs", "capesfc", "hgtprs", "rhprs", "tmpprs",
       "ugrdprs", "vgrdprs", "vvelprs", "slp"] ∧
    (∀ e, extractField interp ds p fn dl = .error e → e.isRecoverable = true →
      extractLoop interp ds p (pre ++ (name, fn, dl) :: post) =
        extractLoop interp ds p (pre ++ post)) ∧
    (∀ e, extractField interp ds p fn dl = .error e → e.isRecoverable = false →
      ∃ e', extractLoop interp ds p (pre ++ (name, fn, dl) :: post) = .error e') ∧
    (∀ values out, extractField interp ds p fn dl = .ok values →
      extractLoop interp ds p (pre ++ (name, fn, dl) :: post) = .ok out →
      (name, values) ∈ out) ∧
    (∀ (args : Args) (pressures : WrfArray) (e : PyErr),
      calculate_pressure w ds = .ok pressures →
      extractLoop (extract_at_levels w) ds pressures (variablesTable w) = .error e →
      runMainLoaded w args ds = .error (.pyErr e) ∨ ds.times.length ≠ 1) := by
  refine ⟨rfl,
    fun e hf hr => extractLoop_skip interp ds p name fn dl e hf hr post pre,
    fun e hf hr => extractLoop_fatal interp ds p name fn dl e hf hr post pre,
    fun values out hf h => extractLoop_mem interp ds p name fn dl values hf post pre out h,
    ?_⟩
  intro args pressures e hp hl
  by_cases h1 : ds.times.length = 1
  · left
    unfold runMainLoaded
    rw [if_pos h1]
    simp only [hp, hl]
  · right
    exact h1

/-- Witness for C1: a recoverable failure drops the field and the loop
continues; a non-recoverable failure fails the whole loop. -/
theorem c1_witness :
    extractLoop (extract_at_levels exW) exDs exArr
      [("absvprs", fun _ => Except.error PyErr.valueError, true)] = Except.ok [] ∧
    (∃ e', extractLoop (extract_at_levels exW) exDs exArr
      [("hgtprs", fun _ => Except.error (PyErr.other "boom"), true)] =
        Except.error e') := by
  constructor
  · exact (c1_per_field_failure_policy exW (extract_at_levels exW) exDs exArr [] []
      "absvprs" (fun _ => Except.error PyErr.valueError) true).2.1
      PyErr.valueError rfl rfl
  · exact (c1_per_field_failure_policy exW (extract_at_levels exW) exDs exArr [] []
      "hgtprs" (fun _ => Except.error (PyErr.other "boom")) true).2.2.1
      (PyErr.other "boom") rfl rfl

/-- Claim C2: longitude normalization rewrites each longitude value `x` to
`x + 360` when `x < 0` and leaves it unchanged when `x ≥ 0`; the rewrite is
elementwise on the snapshot's `XLONG` coordinate and touches nothing else. -/
theorem c2_longitude_normalization (ds : Snapshot) (x : Rat) :
    (convert_longitudes_to_0_360 ds).xlong =
      ds.xlong.map (fun a => a.map (fun b => b.map normalizeLon)) ∧
    (x < 0 → normalizeLon x = x + 360) ∧
    (0 ≤ x → normalizeLon x = x) ∧
    (convert_longitudes_to_0_360 ds).xlat = ds.xlat ∧
    (convert_longitudes_to_0_360 ds).times = ds.times ∧
    (convert_longitudes_to_0_360 ds).attrs = ds.attrs := by
  refine ⟨rfl, fun h => ?_, fun h => ?_, rfl, rfl, rfl⟩
  · simp only [normalizeLon, if_pos h]
  · simp only [normalizeLon, if_neg (not_lt.mpr h)]

/-- Witness for C2 at the values -10 and 20. -/
theorem c2_witness : normalizeLon (-10) = 350 ∧ normalizeLon 20 = 20 := by
  constructor
  · have h := (c2_longitude_normalization exDs (-10)).2.1 (by norm_num)
    rw [h]; norm_num
  · exact (c2_longitude_normalization exDs 20).2.2.1 (by norm_num)

/-- Claim C4: a snapshot with more than one time value makes the run
terminate with the time assertion, before any field extraction and before
any output is produced, whatever the diagnostics library does. -/
theorem c4_multiple_times_aborts (w : WrfLib) (args : Args) (ds : Snapshot)
    (h : 1 < ds.times.length) :
    runMain w true args ds = .error RunError.timeAssertion := by
  rw [runMain_true]
  unfold runMainLoaded
  have h' : ¬((convert_longitudes_to_0_360 ds).times.length = 1) := by
    show ¬(ds.times.length = 1)
    omega
  rw [if_neg h']

/-- Witness for C4: a two-time snapshot. -/
theorem c4_witness :
    runMain exW true exArgs { exDs with times := [exTime, exTime] } =
      .error RunError.timeAssertion :=
  c4_multiple_times_aborts exW exArgs { exDs with times := [exTime, exTime] }
    (by decide)

/-- Claim C5: a field is tagged `('lev', 'lat', 'lon')` exactly when it has
3 axes and `('lat', 'lon')` in every other case, and the container builder
applies this rule to every field it receives. -/
theorem c5_dimension_naming (v : WrfArray)
    (vars : List (String × WrfArray)) (lat lon : List Rat) (lev : List Int)
    (g : List (String × String)) :
    (specify_dimensions_name v = ["lev", "lat", "lon"] ↔ v.ndim = 3) ∧
    (v.ndim ≠ 3 → specify_dimensions_name v = ["lat", "lon"]) ∧
    (construct_xr_dataset vars lat lon lev g).vars =
      vars.map (fun nv => (nv.1, XrVariable.mk (specify_dimensions_name nv.2)
        nv.2.data (filter_attrs nv.2.attrs))) := by
  refine ⟨⟨?_, ?_⟩, ?_, rfl⟩
  · intro h
    by_contra hne
    rw [specify_dimensions_name, if_neg hne] at h
    exact absurd h (by decide)
  · intro h
    rw [specify_dimensions_name, if_pos h]
  · intro h
    rw [specify_dimensions_name, if_neg h]

/-- Witness for C5 at a 3-axis and a 2-axis array. -/
theorem c5_witness :
    specify_dimensions_name ⟨3, [], []⟩ = ["lev", "lat", "lon"] ∧
    specify_dimensions_name ⟨2, [], []⟩ = ["lat", "lon"] :=
  ⟨(c5_dimension_naming ⟨3, [], []⟩ [] [] [] [] []).1.mpr rfl,
   (c5_dimension_naming ⟨2, [], []⟩ [] [] [] [] []).2.1 (by decide)⟩

/-- Claim C10: an empty time coordinate is also rejected by the
single-time assertion, fatally and before any extraction or output. -/
theorem c10_empty_times_aborts (w : WrfLib) (args : Args) (ds : Snapshot)
    (h : ds.times = []) :
    runMain w true args ds = .error RunError.timeAssertion := by
  rw [runMain_true]
  unfold runMainLoaded
  have h' : ¬((convert_longitudes_to_0_360 ds).times.length = 1) := by
    show ¬(ds.times.length = 1)
    rw [h]
    simp
  rw [if_neg h']

/-- Witness for C10: a zero-time snapshot. -/
theorem c10_witness :
    runMain exW true exArgs { exDs with times := [] } =
      .error RunError.timeAssertion :=
  c10_empty_times_aborts exW exArgs { exDs with times := [] } rfl

/-- Claim C3: the domain crop is applied exactly once, to the assembled
container (whose axes are the full coordinate arrays), with the inclusive
window 5 ≤ lat ≤ 45 and 100 ≤ lon ≤ 260; under monotonically increasing
axes every cropped coordinate lies in the window and every in-window
coordinate of the assembled grid is retained. -/
theorem c3_domain_crop (w : WrfLib) (args : Args) (ds : Snapshot)
    (out : MainOutput)
    (hrun : runMain w true args ds = .ok out)
    (hlat : (latCoordOf (convert_longitudes_to_0_360 ds)).Sorted (fun x y => x ≤ y))
    (hlon : (lonCoordOf (convert_longitudes_to_0_360 ds)).Sorted (fun x y => x ≤ y)) :
    (∀ x ∈ out.data.lat, 5 ≤ x ∧ x ≤ 45) ∧
    (∀ x ∈ out.data.lon, 100 ≤ x ∧ x ≤ 260) ∧
    (∀ x ∈ latCoordOf (convert_longitudes_to_0_360 ds),
      5 ≤ x → x ≤ 45 → x ∈ out.data.lat) ∧
    (∀ x ∈ lonCoordOf (convert_longitudes_to_0_360 ds),
      100 ≤ x → x ≤ 260 → x ∈ out.data.lon) ∧
    (∃ assembled : OutDataset,
      out.data = extract_in_domain assembled (5, 45) (100, 260) ∧
      assembled.lat = latCoordOf (convert_longitudes_to_0_360 ds) ∧
      assembled.lon = lonCoordOf (convert_longitudes_to_0_360 ds) ∧
      assembled.lev = PRESSURE_LEVELS) := by
  rw [runMain_true] at hrun
  obtain ⟨h1, pressures, v, hp, hl, hout⟩ := runMainLoaded_ok_elim _ _ _ _ hrun
  subst hout
  have h545 : (5 : Rat) ≤ 45 := by norm_num
  have h100260 : (100 : Rat) ≤ 260 := by norm_num
  refine ⟨?_, ?_, ?_, ?_, ?_⟩
  · intro x hx
    have hx' := (mem_selSlice 5 45 h545
      (latCoordOf (convert_longitudes_to_0_360 ds)) hlat x).mp hx
    exact ⟨hx'.2.1, hx'.2.2⟩
  · intro x hx
    have hx' := (mem_selSlice 100 260 h100260
      (lonCoordOf (convert_longitudes_to_0_360 ds)) hlon x).mp hx
    exact ⟨hx'.2.1, hx'.2.2⟩
  · intro x hx hx5 hx45
    exact (mem_selSlice 5 45 h545
      (latCoordOf (convert_longitudes_to_0_360 ds)) hlat x).mpr ⟨hx, hx5, hx45⟩
  · intro x hx hx100 hx260
    exact (mem_selSlice 100 260 h100260
      (lonCoordOf (convert_longitudes_to_0_360 ds)) hlon x).mpr ⟨hx, hx100, hx260⟩
  · exact ⟨construct_xr_dataset v (latCoordOf (convert_longitudes_to_0_360 ds))
      (lonCoordOf (convert_longitudes_to_0_360 ds)) PRESSURE_LEVELS
      (convert_longitudes_to_0_360 ds).attrs, rfl, rfl, rfl, rfl⟩

/-- Witness for C3: in the example run, the in-window latitude 10 and
longitude 120 are retained by the crop. -/
theorem c3_witness :
    (10 : Rat) ∈ exOut.data.lat ∧ (120 : Rat) ∈ exOut.data.lon := by
  have h := c3_domain_crop exW exArgs exDs exOut rfl (by decide) (by decide)
  exact ⟨h.2.2.1 10 (by decide) (by norm_num) (by norm_num),
         h.2.2.2.1 120 (by decide) (by norm_num) (by norm_num)⟩

/-- Claim C6: the pressure-level axis is the fixed ordered 19-element
sequence, the output's level axis equals it for every input, and the run
depends on the interpolation capability only through its value at
`PRESSURE_LEVELS` (the interpolation target is always that sequence). -/
theorem c6_pressure_levels (w w' : WrfLib) (fe : Bool) (args : Args)
    (ds : Snapshot) (out : MainOutput) :
    PRESSURE_LEVELS =
      [1000, 975, 950, 925, 900, 850, 800, 750, 700,
       650, 600, 550, 500, 450, 400, 350, 300, 250, 200] ∧
    PRESSURE_LEVELS.length = 19 ∧
    (runMain w fe args ds = .ok out → out.data.lev = PRESSURE_LEVELS) ∧
    (w.getvar = w'.getvar → w.destagger = w'.destagger →
      w.addArrays = w'.addArrays →
      (∀ a b, w.interplevel a b PRESSURE_LEVELS = w'.interplevel a b PRESSURE_LEVELS) →
      runMain w fe args ds = runMain w' fe args ds) := by
  refine ⟨rfl, rfl, ?_, ?_⟩
  · intro h
    cases fe with
    | false => simp [runMain] at h
    | true =>
      rw [runMain_true] at h
      obtain ⟨h1, pressures, v, hp, hl, hout⟩ := runMainLoaded_ok_elim _ _ _ _ h
      rw [hout]
      rfl
  · intro hg hd ha hi
    cases fe with
    | false => rfl
    | true =>
      rw [runMain_true, runMain_true]
      unfold runMainLoaded
      have hpc : calculate_pressure w (convert_longitudes_to_0_360 ds) =
          calculate_pressure w' (convert_longitudes_to_0_360 ds) := by
        simp only [calculate_pressure, hg]
      by_cases h1 : (convert_longitudes_to_0_360 ds).times.length = 1
      · rw [if_pos h1, if_pos h1]
        cases hpr : calculate_pressure w (convert_longitudes_to_0_360 ds) with
        | error e =>
          have hpr' : calculate_pressure w' (convert_longitudes_to_0_360 ds) =
              .error e := by rw [← hpc]; exact hpr
          simp only [hpr']
        | ok pressures =>
          have hpr' : calculate_pressure w' (convert_longitudes_to_0_360 ds) =
              .ok pressures := by rw [← hpc]; exact hpr
          simp only [hpr']
          have hloop : extractLoop (extract_at_levels w)
              (convert_longitudes_to_0_360 ds) pressures (variablesTable w) =
              extractLoop (extract_at_levels w')
                (convert_longitudes_to_0_360 ds) pressures (variablesTable w') := by
            rw [variablesTable_congr w w' hg hd ha]
            exact extractLoop_congr_interp _ _ (fun a b => hi a b) _ pressures _
          rw [hloop]
      · rw [if_neg h1, if_neg h1]

/-- Witness for C6: the example run's level axis is `PRESSURE_LEVELS`. -/
theorem c6_witness : exOut.data.lev = PRESSURE_LEVELS :=
  (c6_pressure_levels exW exW true exArgs exDs exOut).2.2.1 rfl

/-- Claim C7: per-field metadata loses exactly the "projection" attribute
and keeps every other key unchanged, while the snapshot's global attributes
are copied onto the output container with no filtering. -/
theorem c7_attribute_filtering (a : List (String × String)) (key : String)
    (w : WrfLib) (args : Args) (ds : Snapshot) (out : MainOutput)
    (vars : List (String × WrfArray)) (lat lon : List Rat) (lev : List Int)
    (g : List (String × String)) :
    (filter_attrs a).lookup "projection" = none ∧
    (key ≠ "projection" → (filter_attrs a).lookup key = a.lookup key) ∧
    ((construct_xr_dataset vars lat lon lev g).vars.map (fun nv => nv.2.attrs) =
      vars.map (fun nv => filter_attrs nv.2.attrs)) ∧
    (construct_xr_dataset vars lat lon lev g).attrs = g ∧
    (runMain w true args ds = .ok out → out.data.attrs = ds.attrs) := by
  refine ⟨lookup_filter_attrs_projection a,
    fun h => lookup_filter_attrs_ne a key h, ?_, rfl, ?_⟩
  · simp [construct_xr_dataset]
  · intro h
    rw [runMain_true] at h
    obtain ⟨h1, pressures, v, hp, hl, hout⟩ := runMainLoaded_ok_elim _ _ _ _ h
    rw [hout]
    rfl

/-- Witness for C7: the "projection" attribute is gone, "title" is kept,
and the example run's global attributes are the raw snapshot's. -/
theorem c7_witness :
    (filter_attrs [("title", "wrfout"), ("projection", "lcc")]).lookup
      "projection" = none ∧
    (filter_attrs [("title", "wrfout"), ("projection", "lcc")]).lookup
      "title" = some "wrfout" ∧
    exOut.data.attrs = exDs.attrs := by
  have h := c7_attribute_filtering [("title", "wrfout"), ("projection", "lcc")]
    "title" exW exArgs exDs exOut [] [] [] [] []
  refine ⟨h.1, ?_, h.2.2.2.2 rfl⟩
  rw [h.2.1 (by decide)]
  rfl

/-- Claim C8: every run that reaches the write step writes to exactly
`<outputdir>/<pfx>_<T>.nc` with the caller's `pfx` verbatim and `T` the
snapshot's single time value formatted as `YYYYMMDD_HH_MM`. -/
theorem c8_output_path (w : WrfLib) (args : Args) (ds : Snapshot)
    (out : MainOutput) (h : runMain w true args ds = .ok out) :
    out.path = args.outputdir ++ "/" ++ args.pfx ++ "_" ++
      strftimeTimeFormat (ds.times.headD ⟨0, 0, 0, 0, 0⟩) ++ ".nc" := by
  rw [runMain_true] at h
  obtain ⟨h1, pressures, v, hp, hl, hout⟩ := runMainLoaded_ok_elim _ _ _ _ h
  rw [hout]
  rfl

/-- Witness for C8: the example run writes `out/fnl_20080505_00_00.nc`. -/
theorem c8_witness : exOut.path = "out/fnl_20080505_00_00.nc" := by
  have h := c8_output_path exW exArgs exDs exOut rfl
  rw [h]
  rfl

/-- Claim C9: the pressure field is computed before the extraction loop and
outside its recoverable-error handler, so any error there (a recoverable
kind included) aborts the whole run, even though the same error kind is
recoverable inside a per-field extraction. -/
theorem c9_pressure_error_aborts (w : WrfLib) (args : Args) (ds : Snapshot)
    (e : PyErr)
    (h1 : ds.times.length = 1)
    (hp : w.getvar (convert_longitudes_to_0_360 ds) "p" (some "hPa") = .error e) :
    runMain w true args ds = .error (RunError.pyErr e) ∧
    (∀ (interp : WrfArray → WrfArray → List Int → Except PyErr WrfArray)
       (p : WrfArray) (name : String) (fn : Snapshot → Except PyErr WrfArray)
       (dl : Bool)
       (rest : List (String × (Snapshot → Except PyErr WrfArray) × Bool)),
      e.isRecoverable = true →
      extractField interp (convert_longitudes_to_0_360 ds) p fn dl = .error e →
      extractLoop interp (convert_longitudes_to_0_360 ds) p
          ((name, fn, dl) :: rest) =
        extractLoop interp (convert_longitudes_to_0_360 ds) p rest) := by
  constructor
  · rw [runMain_true]
    unfold runMainLoaded
    have h1' : (convert_longitudes_to_0_360 ds).times.length = 1 := h1
    rw [if_pos h1']
    have hp' : calculate_pressure w (convert_longitudes_to_0_360 ds) = .error e := hp
    rw [hp']
  · intro interp p name fn dl rest hr hf
    exact extractLoop_skip interp (convert_longitudes_to_0_360 ds) p name fn dl
      e hf hr rest []

/-- Witness for C9: a library whose pressure diagnostic raises a
`ValueError` aborts the example run. -/
theorem c9_witness :
    runMain
      { exW with getvar := fun _ n _ =>
          if n = "p" then .error PyErr.valueError else .ok exArr }
      true exArgs exDs = .error (RunError.pyErr PyErr.valueError) :=
  (c9_pressure_error_aborts
    { exW with getvar := fun _ n _ =>
        if n = "p" then .error PyErr.valueError else .ok exArr }
    exArgs exDs PyErr.valueError rfl rfl).1

end ExtractFeatures
